import Mathlib

/-!
Verification development for the vived chat-platform client library.

The development shallowly embeds the two core subsystems of the repository:

* the request governor of `vived_api/src/client.rs` (`Client::handle_ratelimit`
  and `Client::make_request`): concurrency-bounded execution of API operations
  with transparent retry on HTTP 429 rate-limit responses; and
* the live event relay of `vived_websocket/src/client.rs` (`event_loop`) with
  the tagged event decoding of `vived_websocket/src/events.rs` and the data
  model of `vived_models`.

Machine integers (`u64`, `u32`, `usize`) are modelled as `Nat`; none of the
embedded code paths can overflow them on the inputs considered (wait duration
arithmetic only doubles a counter that stays far below `2 ^ 64` for the finite
retry scripts considered here, and the doubling in the source would panic on
overflow in debug builds rather than wrap).
-/

namespace Vived

/-! ### A model of JSON values (`serde_json::Value`)

Numbers are modelled as integers: every JSON document handled by the claims
under study carries only integral numbers (ids, color values), and the decoders
below reject everything except the exact shapes the Rust `Deserialize`
implementations accept on those documents.
-/

/-- A JSON value, mirroring `serde_json::Value`. -/
inductive Json where
  | null
  | bool (b : Bool)
  | num (n : Int)
  | str (s : String)
  | arr (elems : List Json)
  | obj (fields : List (String × Json))

/-- Look a key up in an object's field list (first occurrence).  The JSON
documents used in this development carry no duplicate keys, so first-match
lookup agrees with `serde_json`. -/
def lookupField : List (String × Json) → String → Option Json
  | [], _ => none
  | (k, v) :: rest, key => if k = key then some v else lookupField rest key

/-- View a JSON value as an object. -/
def asObj : Json → Option (List (String × Json))
  | .obj fs => some fs
  | _ => none

/-- Decode a JSON string. -/
def decodeString : Json → Option String
  | .str s => some s
  | _ => none

/-- Decode a JSON boolean. -/
def decodeBool : Json → Option Bool
  | .bool b => some b
  | _ => none

/-- Decode a JSON number as a `u32` (used by `Color`'s `From<u32>` decode). -/
def decodeU32 : Json → Option Nat
  | .num n => if 0 ≤ n ∧ n < 4294967296 then some n.toNat else none
  | _ => none

/-- Decode a JSON number as a `usize` (used by `RoleId`). -/
def decodeUsize : Json → Option Nat
  | .num n => if 0 ≤ n ∧ n < 18446744073709551616 then some n.toNat else none
  | _ => none

/-- Decode every element of a JSON array (mirrors `Vec<T>` deserialization). -/
def decodeList (d : Json → Option α) : Json → Option (List α)
  | .arr xs => xs.mapM d
  | _ => none

/-- A required struct field: missing field or failed element decode is an
error, exactly as for a serde struct field without `default`. -/
def reqField (fs : List (String × Json)) (key : String) (d : Json → Option α) :
    Option α :=
  (lookupField fs key).bind d

/-- An `Option<T>` struct field: serde's derive treats a missing field as
`None`, an explicit `null` as `None`, and otherwise decodes `T`. -/
def optField (fs : List (String × Json)) (key : String) (d : Json → Option α) :
    Option (Option α) :=
  match lookupField fs key with
  | none => some none
  | some .null => some none
  | some v => (d v).map some

/-- A `#[serde(default)]` struct field of non-`Option` type: a missing field
takes the default value; a present field must decode. -/
def defField (fs : List (String × Json)) (key : String) (d : Json → Option α)
    (dflt : α) : Option α :=
  match lookupField fs key with
  | none => some dflt
  | some v => d v

/-! ### The governor's error and action types (`vived_api/src/client.rs`) -/

/-- `GuildedError` of `client.rs`: the structured error body sent by the
server on non-2xx, non-429 statuses. -/
structure GuildedError where
  code : String
  message : String
  meta : Option Json

/-- `ApiError` of `client.rs`.  The payloads of `Request` (a `reqwest::Error`)
and `JsonError` (a `serde_json::Error`) are opaque diagnostic values never
inspected by the library, so they are not carried here. -/
inductive ApiError where
  | Other (s : String)
  | Request
  | JsonError
  | Guilded (e : GuildedError)

/-- `ApiResultAction` of `client.rs`: what the ratelimiter does with the
result of one attempt of the api call closure. -/
inductive ApiResultAction (R : Type) where
  | Return (r : R)
  | RetryAfter (secs : Nat)
  | RetryWithBackoff

/-- `CONCURRENT_REQUEST` of `client.rs`: size of the permit pool. -/
def CONCURRENT_REQUEST : Nat := 30

/-- `LOCK_HOLD_DURATION` of `client.rs`: seconds a permit is held after the
call returns before being dropped (by the detached task spawned at the end of
`handle_ratelimit`). -/
def LOCK_HOLD_DURATION : Nat := 30

/-! ### One attempt of `make_request`'s closure

`Client::make_request` passes `handle_ratelimit` a closure that builds the
request, sends it, and classifies the response.  An `Attempt R` is the
observable behaviour of the wire (and of the endpoint decoder `E::from_raw`)
during one execution of that closure; `classify` is the closure's
resulting `ApiResultAction`, read directly off the `match`/`if` chain in
`make_request` (client.rs lines 262-319). -/

/-- The behaviour of one attempt: what the transport and decoders do when the
closure of `make_request` runs once. -/
inductive Attempt (R : Type) where
  /-- `builder.build(&client).build()` fails (`ret_error` → `ApiError::Request`). -/
  | buildError
  /-- `client.execute(request)` fails → `ApiError::Request`. -/
  | sendError
  /-- 2xx status but `res.text()` fails (`ret_error` → `ApiError::Request`). -/
  | successTextError
  /-- 2xx status with body text; `decoded` is the result of `E::from_raw`
  (`none` means the body did not parse → `ApiError::JsonError`). -/
  | success (decoded : Option R)
  /-- 429 status; `retryAfter` is the parsed `Retry-After` header (`none` when
  the header is absent, not ASCII, or not an integer). -/
  | tooManyRequests (retryAfter : Option Nat)
  /-- non-2xx, non-429 status but `res.text()` fails → `ApiError::Request`. -/
  | otherTextError
  /-- non-2xx, non-429 status with body text; `parsed` is the body parsed as a
  `GuildedError` (`none` means it did not parse → `ApiError::JsonError`). -/
  | otherStatus (parsed : Option GuildedError)

/-- The `ApiResultAction` produced by one run of `make_request`'s closure on
the given attempt behaviour. -/
def classify : Attempt R → ApiResultAction (Except ApiError R)
  | .buildError => .Return (.error .Request)
  | .sendError => .Return (.error .Request)
  | .successTextError => .Return (.error .Request)
  | .success (some r) => .Return (.ok r)
  | .success none => .Return (.error .JsonError)
  | .tooManyRequests (some w) => .RetryAfter w
  | .tooManyRequests none => .RetryWithBackoff
  | .otherTextError => .Return (.error .Request)
  | .otherStatus (some g) => .Return (.error (.Guilded g))
  | .otherStatus none => .Return (.error .JsonError)

/-! ### The retry loop of `handle_ratelimit`, single caller

`handle_ratelimit` acquires one permit, runs the closure in a loop, and on
each 429 seizes all currently-available permits (`acquire_many_owned` of
`available_permits()`instances) into `lockdown_permits` — the assignment
dropping (releasing) any previously seized batch — sleeps, and retries.  On a
terminal result it `forget`s the currently seized batch (destroying those
permits) and spawns a task that drops the caller's own permit after
`LOCK_HOLD_DURATION` seconds.

The model below runs one call sequentially against a pool of initial capacity
`n` with no other callers, which is exactly the semantics of the source in
that scenario:  `avail` is `available_permits()`, `total` the number of
permits still in existence (forgetting permits shrinks it), `lockdown` the
currently seized batch, `backoff` the local `backoff_amount` (initially 20),
`waits` the sleeps performed so far (most recent first), and `releasedBack`
the number of seized permits returned to the pool by a later seizure
overwriting `lockdown_permits`. -/

/-- Loop state of one `handle_ratelimit` call (single caller). -/
structure LoopSt where
  avail : Nat
  total : Nat
  lockdown : Option Nat
  backoff : Nat
  waits : List Nat
  releasedBack : Nat

/-- The observable outcome of one completed `handle_ratelimit` call:
its returned value, the sleeps it performed in order, the permits destroyed
by the final `forget`, the permits released back to the pool mid-call by
overwritten seizures, the pool capacity and available permits once the call
and its cooldown task have both finished, and the cooldown duration the
caller's permit is held after the call returns. -/
structure CallOutcome (R : Type) where
  result : Except ApiError R
  waits : List Nat
  forgotten : Nat
  releasedBack : Nat
  finalTotal : Nat
  finalAvail : Nat
  cooldown : Nat

/-- One ratelimit-lockdown step: acquire all `avail` available permits into
`lockdown_permits` (leaving 0 available), the assignment then dropping the
previously seized batch back into the pool; record the sleep of `w` seconds. -/
def seizeStep (st : LoopSt) (w : Nat) : LoopSt :=
  { avail := st.lockdown.getD 0
    total := st.total
    lockdown := some st.avail
    backoff := st.backoff
    waits := w :: st.waits
    releasedBack := st.releasedBack + st.lockdown.getD 0 }

/-- The retry loop of `handle_ratelimit`, driven by the list of attempt
behaviours (one per closure execution).  Returns `none` when the script runs
out before a terminal result (the call would still be retrying). -/
def handle_loop : List (Attempt R) → LoopSt → Option (CallOutcome R)
  | [], _ => none
  | a :: rest, st =>
    match classify a with
    | .Return v =>
        some { result := v
               waits := st.waits.reverse
               forgotten := st.lockdown.getD 0
               releasedBack := st.releasedBack
               finalTotal := st.total - st.lockdown.getD 0
               finalAvail := st.avail + 1
               cooldown := LOCK_HOLD_DURATION }
    | .RetryAfter w => handle_loop rest (seizeStep st w)
    | .RetryWithBackoff =>
        handle_loop rest { seizeStep st st.backoff with backoff := st.backoff * 2 }

/-- State at loop entry: the caller has acquired its one permit from a fresh
pool of `n`, `backoff_amount` is 20, no lockdown is held. -/
def initLoopSt (n : Nat) : LoopSt :=
  { avail := n - 1, total := n, lockdown := none, backoff := 20
    waits := [], releasedBack := 0 }

/-- One `Client::make_request` call (single caller) against a pool of initial
capacity `n`, with attempt behaviours given by `attempts`.  `none` for `n = 0`
(the initial `acquire_owned` would suspend forever) or when the script ends
before the loop does. -/
def make_request_run (attempts : List (Attempt R)) (n : Nat) :
    Option (CallOutcome R) :=
  if n = 0 then none else handle_loop attempts (initLoopSt n)

/-! ### Lemmas about the retry loop -/

/-- Any run of 429 responses (with or without a `Retry-After` header) followed
by a successfully decoded 2xx response makes the loop return that decoded
value, from any loop state. -/
theorem handle_loop_throttles_then_success {R : Type} (tms : List (Option Nat))
    (st : LoopSt) (r : R) :
    (handle_loop (tms.map Attempt.tooManyRequests ++ [Attempt.success (some r)]) st).map
      CallOutcome.result = some (Except.ok r) := by
  induction tms generalizing st with
  | nil => simp [handle_loop, classify]
  | cons hd tl ih =>
    cases hd with
    | none => simpa [handle_loop, classify] using ih _
    | some w => simpa [handle_loop, classify] using ih _

/-- `k` consecutive 429s without a parsable `Retry-After`, then a decoded 2xx:
the loop sleeps `backoff, 2 * backoff, …, 2 ^ (k - 1) * backoff`. -/
theorem handle_loop_backoff_waits {R : Type} (k : Nat) (st : LoopSt) (r : R) :
    (handle_loop (List.replicate k (Attempt.tooManyRequests none) ++
        [Attempt.success (some r)]) st).map CallOutcome.waits
      = some (st.waits.reverse ++ (List.range k).map fun i => st.backoff * 2 ^ i) := by
  induction k generalizing st with
  | zero => simp [handle_loop, classify]
  | succ k ih =>
    rw [List.replicate_succ, List.cons_append]
    have h := ih { seizeStep st st.backoff with backoff := st.backoff * 2 }
    simp only [handle_loop, classify]
    rw [h]
    simp only [seizeStep, List.range_succ_eq_map, List.map_cons, List.map_map,
      List.reverse_cons, List.append_assoc, pow_zero, Nat.mul_one,
      List.singleton_append, Option.some.injEq]
    congr 1
    congr 1
    refine List.map_congr_left fun i _ => ?_
    simp only [Function.comp, pow_succ]
    ring

/-- After `k` backoff throttles the currently seized lockdown batch alternates
between everything that was available (`st.avail`, odd `k`) and the batch held
on entry (even `k`, including `k = 0`); the terminal `forget` destroys exactly
that batch. -/
theorem handle_loop_forget_alternates {R : Type} (k : Nat) (st : LoopSt) (r : R) :
    (handle_loop (List.replicate k (Attempt.tooManyRequests none) ++
        [Attempt.success (some r)]) st).map (fun o => (o.forgotten, o.finalTotal))
      = some (if k % 2 = 1 then st.avail else st.lockdown.getD 0,
          st.total - (if k % 2 = 1 then st.avail else st.lockdown.getD 0)) := by
  induction k generalizing st with
  | zero => simp [handle_loop, classify]
  | succ k ih =>
    rw [List.replicate_succ, List.cons_append]
    have h := ih { seizeStep st st.backoff with backoff := st.backoff * 2 }
    simp only [handle_loop, classify]
    rw [h]
    rcases Nat.mod_two_eq_zero_or_one k with hk | hk <;>
      have h2 : (k + 1) % 2 = 1 - k % 2 := by omega
    all_goals simp [seizeStep, hk, h2]

/-! ### Claim C1 -/

/-- Claim C1: for every sequence of responses in which a `make_request` call
receives one or more 429 responses (each with a parsed or unparsable
`Retry-After`) followed by a 2xx response whose body decodes, the call returns
the decoded result — exactly once, since `handle_ratelimit` returns a single
value — and no error is surfaced for any intermediate 429. -/
theorem c1_429s_then_success_returns_result {R : Type} (tm : Option Nat)
    (tms : List (Option Nat)) (r : R) (n : Nat) (hn : 1 ≤ n) :
    (make_request_run ((tm :: tms).map Attempt.tooManyRequests ++
        [Attempt.success (some r)]) n).map CallOutcome.result
      = some (Except.ok r) := by
  unfold make_request_run
  rw [if_neg (by omega)]
  exact handle_loop_throttles_then_success _ _ _

/-- Witness for C1 at a concrete input: a 429 with `Retry-After: 5`, a 429
without the header, then a decoded 2xx, against the pool of 30. -/
theorem c1_witness :
    1 ≤ 30 ∧
      (make_request_run ((some 5 :: [none]).map Attempt.tooManyRequests ++
          [Attempt.success (some (0 : Nat))]) 30).map CallOutcome.result
        = some (Except.ok 0) :=
  ⟨by decide, c1_429s_then_success_returns_result (some 5) [none] 0 30 (by decide)⟩

/-! ### Claim C6 (corrected) -/

/-- Claim C6 counterexample: on a transport failure the permit is **not**
released immediately — the call schedules the same `LOCK_HOLD_DURATION` (30
time-unit) cooldown as every other terminal path, refuting the claimed
skipped cooldown. -/
theorem c6_counterexample :
    (make_request_run [(Attempt.sendError : Attempt Nat)] 30).map CallOutcome.cooldown
        = some 30 ∧
      (make_request_run [(Attempt.sendError : Attempt Nat)] 30).map CallOutcome.cooldown
        ≠ some 0 :=
  ⟨rfl, by decide⟩

/-- Claim C6 as amended: a transport failure makes `make_request` return
`ApiError::Request`, with nothing seized or forgotten, and the held permit is
released only after the same `LOCK_HOLD_DURATION` cooldown that success and
throttle paths pay. -/
theorem c6_amended_transport_error_shares_cooldown {R : Type} (n : Nat) (hn : 1 ≤ n) :
    (make_request_run [(Attempt.sendError : Attempt R)] n).map
        (fun o => (o.result, o.cooldown, o.forgotten))
      = some (Except.error ApiError.Request, LOCK_HOLD_DURATION, 0) := by
  unfold make_request_run
  rw [if_neg (by omega)]
  rfl

/-- Witness for the amended C6 at the concrete pool size 30. -/
theorem c6_amended_witness :
    1 ≤ 30 ∧
      (make_request_run [(Attempt.sendError : Attempt Nat)] 30).map
          (fun o => (o.result, o.cooldown, o.forgotten))
        = some (Except.error ApiError.Request, LOCK_HOLD_DURATION, 0) :=
  ⟨by decide, c6_amended_transport_error_shares_cooldown 30 (by decide)⟩

/-! ### Claim C7 -/

/-- Claim C7: 429 responses whose `Retry-After` header is absent or not a
valid integer are retried via the backoff path — the call does not fail — and
the waits are `20, 40, 80, …`, doubling on each consecutive such 429.  The
backoff counter is the local variable `backoff_amount` of one
`handle_ratelimit` call (`initLoopSt` starts every call at 20), so the state
is call-local and not shared across callers. -/
theorem c7_backoff_starts_at_20_and_doubles {R : Type} (k : Nat) (r : R)
    (n : Nat) (hn : 1 ≤ n) :
    (make_request_run (List.replicate (k + 1) (Attempt.tooManyRequests none) ++
        [Attempt.success (some r)]) n).map CallOutcome.waits
      = some ((List.range (k + 1)).map fun i => 20 * 2 ^ i) := by
  unfold make_request_run
  rw [if_neg (by omega)]
  simpa [initLoopSt] using handle_loop_backoff_waits (k + 1) (initLoopSt n) r

/-- Witness for C7: two headerless 429s then a decoded 2xx sleep 20 then 40. -/
theorem c7_witness :
    1 ≤ 30 ∧
      (make_request_run (List.replicate 2 (Attempt.tooManyRequests none) ++
          [Attempt.success (some (0 : Nat))]) 30).map CallOutcome.waits
        = some [20, 40] :=
  ⟨by decide, c7_backoff_starts_at_20_and_doubles 1 0 30 (by decide)⟩

/-! ### Claim C5 (corrected) -/

/-- Claim C5 counterexample: in a call that hits two headerless 429s before
succeeding (pool 30), the 29 permits seized by the first throttle are
**released back to the pool** when the second seizure overwrites
`lockdown_permits`; the final `forget` destroys 0 permits and the pool ends at
its full capacity 30 — refuting both "forgotten rather than released back"
and "capacity permanently reduced by the number of seized permits". -/
theorem c5_counterexample :
    (make_request_run [Attempt.tooManyRequests none, Attempt.tooManyRequests none,
          Attempt.success (some (0 : Nat))] 30).map
        (fun o => (o.releasedBack, o.forgotten, o.finalTotal))
        = some (29, 0, 30) ∧
      (make_request_run [Attempt.tooManyRequests none, Attempt.tooManyRequests none,
          Attempt.success (some (0 : Nat))] 30).map CallOutcome.releasedBack
        ≠ some 0 :=
  ⟨rfl, by decide⟩

/-- Claim C5 as amended: only the batch seized by the call's **final**
throttle is forgotten; each earlier batch is released back to the pool when
the next seizure overwrites it.  For a call with `k` headerless 429s against a
fresh pool of `n`, seizures alternate between `n - 1` and `0`, so the
permanent capacity loss is `n - 1` when `k` is odd and `0` when `k` is even;
capacity never increases above `n`. -/
theorem c5_amended_only_final_seizure_forgotten {R : Type} (k : Nat) (r : R)
    (n : Nat) (hn : 1 ≤ n) :
    (make_request_run (List.replicate k (Attempt.tooManyRequests none) ++
        [Attempt.success (some r)]) n).map (fun o => (o.forgotten, o.finalTotal))
      = some (if k % 2 = 1 then n - 1 else 0, if k % 2 = 1 then 1 else n) := by
  unfold make_request_run
  rw [if_neg (by omega)]
  rw [handle_loop_forget_alternates]
  rcases Nat.mod_two_eq_zero_or_one k with hk | hk
  · simp [initLoopSt, hk]
  · simp [initLoopSt, hk]
    omega

/-- Witness for the amended C5: one throttle (odd) forgets 29 of 30 permits. -/
theorem c5_amended_witness :
    1 ≤ 30 ∧
      (make_request_run (List.replicate 1 (Attempt.tooManyRequests none) ++
          [Attempt.success (some (0 : Nat))]) 30).map
          (fun o => (o.forgotten, o.finalTotal))
        = some (29, 1) :=
  ⟨by decide, c5_amended_only_final_seizure_forgotten 1 0 30 (by decide)⟩

/-! ### Claim C3 (corrected) -/

/-- Claim C3 counterexample: a call that closes the gate (429 with
`Retry-After: 5`, seizing the 29 available permits) and then succeeds after
its wait elapses leaves the pool at capacity 1, not 30: the closer does
**not** reopen the gate once its wait elapses — it holds the seized permits
through the retry and forgets them at return, so the seized capacity is never
restored to suspended callers. -/
theorem c3_counterexample :
    (make_request_run [Attempt.tooManyRequests (some 5),
          Attempt.success (some (0 : Nat))] 30).map CallOutcome.finalTotal
        = some 1 ∧
      (make_request_run [Attempt.tooManyRequests (some 5),
          Attempt.success (some (0 : Nat))] 30).map CallOutcome.finalTotal
        ≠ some 30 :=
  ⟨rfl, by decide⟩

/-- Claim C3 as amended: the caller that closes the gate keeps the seized
permits while its wait elapses and across its retry; at terminal return it
forgets (destroys) them, so the seized capacity is never restored — after a
single-throttle call against a fresh pool of `n`, exactly `n - 1` permits are
forgotten and the pool's capacity drops to 1 (the closer's own permit,
released after its cooldown).  Seized capacity re-enters the pool only when a
later throttle of the same call overwrites the seizure. -/
theorem c3_amended_seized_capacity_not_restored {R : Type} (n w : Nat) (r : R)
    (hn : 1 ≤ n) :
    (make_request_run [Attempt.tooManyRequests (some w),
        Attempt.success (some r)] n).map
        (fun o => (o.result, o.waits, o.forgotten, o.finalTotal))
      = some (Except.ok r, [w], n - 1, 1) := by
  unfold make_request_run
  rw [if_neg (by omega)]
  simp [handle_loop, classify, seizeStep, initLoopSt]
  omega

/-- Witness for the amended C3 at pool 30, `Retry-After: 5`. -/
theorem c3_amended_witness :
    1 ≤ 30 ∧
      (make_request_run [Attempt.tooManyRequests (some 5),
          Attempt.success (some (0 : Nat))] 30).map
          (fun o => (o.result, o.waits, o.forgotten, o.finalTotal))
        = some (Except.ok 0, [5], 29, 1) :=
  ⟨by decide, c3_amended_seized_capacity_not_restored 30 5 0 (by decide)⟩

/-! ### Concurrent callers: a step relation over the permit pool

`Client` shares one `tokio::sync::Semaphore` (created with
`CONCURRENT_REQUEST` permits) among all concurrent `make_request` calls.  The
model below is a small-step transition system over the phases a single
`handle_ratelimit` call moves through:

* `waiting`   — suspended in the initial `acquire_owned` (holds nothing);
* `running l` — executing the closure, i.e. network I/O is in flight; holds
  its own permit plus a lockdown batch of `l` permits kept from an earlier
  throttle of the same call (`l = 0` before any throttle);
* `sleeping k` — throttled: it has seized a batch of `k` permits into
  `lockdown_permits` (releasing its previous batch) and sleeps;
* `cooldown`  — the call returned and forgot its lockdown batch; the spawned
  cooldown task still holds the call's own permit;
* `finished`  — the cooldown task dropped the permit.

`total` counts the permits still in existence (`forget` destroys permits) and
`avail` the permits available for acquisition.  The seized batch size `k` in
`throttle` is any value `≤ avail`: the source seizes
`available_permits()` permits, but under concurrency the count read may be
stale, so the relation admits every batch the semaphore could actually hand
over. -/

/-- Phase of one `handle_ratelimit` call. -/
inductive Phase where
  | waiting
  | running (lockdown : Nat)
  | sleeping (lockdown : Nat)
  | cooldown
  | finished
deriving DecidableEq

/-- Permits currently held by a call in the given phase (its own permit plus
any lockdown batch). -/
def Phase.held : Phase → Nat
  | .waiting => 0
  | .running l => 1 + l
  | .sleeping l => 1 + l
  | .cooldown => 1
  | .finished => 0

/-- Is the call currently executing the closure (network I/O in flight)? -/
def Phase.isRunning : Phase → Bool
  | .running _ => true
  | _ => false

/-- Shared state: the semaphore and the phase of every call. -/
structure SysState where
  total : Nat
  avail : Nat
  tasks : List Phase
deriving DecidableEq

/-- Permits held across all calls. -/
def heldSum (ts : List Phase) : Nat := (ts.map Phase.held).sum

/-- Fresh client (pool of `n`) with `m` calls about to start. -/
def initState (n m : Nat) : SysState :=
  ⟨n, n, List.replicate m .waiting⟩

/-- The gate is closed: some call is sleeping on a nonempty seized batch. -/
def gateClosed (s : SysState) : Bool :=
  s.tasks.any fun p =>
    match p with
    | .sleeping (_ + 1) => true
    | _ => false

/-- One transition of the system. -/
inductive Step : SysState → SysState → Prop where
  /-- `acquire_owned` completes: needs an available permit. -/
  | acquire (s : SysState) (i : Nat) (h : s.tasks[i]? = some .waiting)
      (hp : 1 ≤ s.avail) :
      Step s ⟨s.total, s.avail - 1, s.tasks.set i (.running 0)⟩
  /-- The closure returns a 429: the call seizes a batch of `k` available
  permits into `lockdown_permits`, the assignment releasing its previous
  batch `l`, and goes to sleep. -/
  | throttle (s : SysState) (i k l : Nat) (h : s.tasks[i]? = some (.running l))
      (hk : k ≤ s.avail) :
      Step s ⟨s.total, s.avail - k + l, s.tasks.set i (.sleeping k)⟩
  /-- The throttle sleep elapses; the call retries, keeping its batch. -/
  | wake (s : SysState) (i l : Nat) (h : s.tasks[i]? = some (.sleeping l)) :
      Step s ⟨s.total, s.avail, s.tasks.set i (.running l)⟩
  /-- The closure returns a terminal result: the lockdown batch is forgotten
  (destroyed) and the cooldown task is spawned holding the call's permit. -/
  | finish (s : SysState) (i l : Nat) (h : s.tasks[i]? = some (.running l)) :
      Step s ⟨s.total - l, s.avail, s.tasks.set i .cooldown⟩
  /-- `LOCK_HOLD_DURATION` elapses: the cooldown task drops the permit. -/
  | release (s : SysState) (i : Nat) (h : s.tasks[i]? = some .cooldown) :
      Step s ⟨s.total, s.avail + 1, s.tasks.set i .finished⟩

/-- States reachable by a client with pool `n` serving `m` calls. -/
inductive Reachable (n m : Nat) : SysState → Prop where
  | init : Reachable n m (initState n m)
  | step {s t : SysState} : Reachable n m s → Step s t → Reachable n m t

/-- Permit accounting invariant: permits held plus permits available equal the
permits in existence, which never exceed the initial pool size. -/
def Inv (n : Nat) (s : SysState) : Prop :=
  heldSum s.tasks + s.avail = s.total ∧ s.total ≤ n

/-- `heldSum` unfolds over cons. -/
theorem heldSum_cons (p : Phase) (ts : List Phase) :
    heldSum (p :: ts) = p.held + heldSum ts := by
  simp [heldSum]

/-- Updating one phase changes `heldSum` by the difference of held permits. -/
theorem heldSum_set (ts : List Phase) (i : Nat) (p q : Phase)
    (h : ts[i]? = some q) :
    heldSum (ts.set i p) + q.held = heldSum ts + p.held := by
  induction ts generalizing i with
  | nil => simp at h
  | cons hd tl ih =>
    cases i with
    | zero =>
      simp at h
      subst h
      rw [show (hd :: tl).set 0 p = p :: tl from rfl, heldSum_cons, heldSum_cons]
      omega
    | succ j =>
      simp at h
      have := ih j h
      rw [show (hd :: tl).set (j + 1) p = hd :: tl.set j p from rfl,
        heldSum_cons, heldSum_cons]
      omega

/-- A task named by a valid index holds at most `heldSum`. -/
theorem held_le_heldSum (ts : List Phase) (i : Nat) (q : Phase)
    (h : ts[i]? = some q) : q.held ≤ heldSum ts := by
  induction ts generalizing i with
  | nil => simp at h
  | cons hd tl ih =>
    cases i with
    | zero =>
      simp at h
      subst h
      rw [heldSum_cons]
      omega
    | succ j =>
      simp at h
      have := ih j h
      rw [heldSum_cons]
      omega

/-- The invariant holds initially. -/
theorem inv_init (n m : Nat) : Inv n (initState n m) := by
  constructor
  · simp [initState, heldSum, Phase.held, List.map_replicate]
  · simp [initState]

/-- The invariant is preserved by every step. -/
theorem inv_step {n : Nat} {s t : SysState} (hs : Inv n s) (st : Step s t) :
    Inv n t := by
  obtain ⟨hsum, htot⟩ := hs
  cases st with
  | acquire i h hp =>
    have hset := heldSum_set s.tasks i (.running 0) .waiting h
    refine ⟨?_, by simpa using htot⟩
    simp [Phase.held] at hset ⊢
    omega
  | throttle i k l h hk =>
    have hset := heldSum_set s.tasks i (.sleeping k) (.running l) h
    refine ⟨?_, by simpa using htot⟩
    simp [Phase.held] at hset ⊢
    omega
  | wake i l h =>
    have hset := heldSum_set s.tasks i (.running l) (.sleeping l) h
    refine ⟨?_, by simpa using htot⟩
    simp [Phase.held] at hset ⊢
    omega
  | finish i l h =>
    have hset := heldSum_set s.tasks i .cooldown (.running l) h
    have hle := held_le_heldSum s.tasks i (.running l) h
    refine ⟨?_, by simp; omega⟩
    simp [Phase.held] at hset hle ⊢
    omega
  | release i h =>
    have hset := heldSum_set s.tasks i .finished .cooldown h
    have hle := held_le_heldSum s.tasks i .cooldown h
    refine ⟨?_, by simpa using htot⟩
    simp [Phase.held] at hset hle ⊢
    omega

/-- Every reachable state satisfies the invariant. -/
theorem inv_reachable {n m : Nat} {s : SysState} (h : Reachable n m s) :
    Inv n s := by
  induction h with
  | init => exact inv_init n m
  | step _ st ih => exact inv_step ih st

/-- Calls in flight each hold at least one permit. -/
theorem countRunning_le_heldSum (ts : List Phase) :
    ts.countP Phase.isRunning ≤ heldSum ts := by
  induction ts with
  | nil => simp [heldSum]
  | cons hd tl ih =>
    rw [List.countP_cons]
    cases hd <;> simp [heldSum, Phase.isRunning, Phase.held] at ih ⊢ <;> omega

/-! ### Claim C2 -/

/-- Claim C2: for a `Client` constructed with pool size `n`, in every state
reachable by arbitrarily many concurrent `make_request` calls, at most `n`
calls are in flight against the underlying transport at once (`running`
phases), and the pool never has more than `n` outstanding (unreleased)
permits (`heldSum`). -/
theorem c2_pool_bounds_in_flight {n m : Nat} {s : SysState}
    (h : Reachable n m s) :
    s.tasks.countP Phase.isRunning ≤ n ∧ heldSum s.tasks ≤ n := by
  obtain ⟨hsum, htot⟩ := inv_reachable h
  have hc := countRunning_le_heldSum s.tasks
  omega

/-- Witness for C2: pool of 2, three callers, one step in — one call in
flight, one permit outstanding, both bounded by 2. -/
theorem c2_witness :
    Reachable 2 3 ⟨2, 1, [Phase.running 0, Phase.waiting, Phase.waiting]⟩ ∧
      ((⟨2, 1, [Phase.running 0, Phase.waiting, Phase.waiting]⟩ : SysState).tasks.countP
          Phase.isRunning ≤ 2 ∧
        heldSum (⟨2, 1, [Phase.running 0, Phase.waiting, Phase.waiting]⟩ : SysState).tasks ≤ 2) :=
  have hr : Reachable 2 3 ⟨2, 1, [Phase.running 0, Phase.waiting, Phase.waiting]⟩ :=
    Reachable.step Reachable.init (Step.acquire (initState 2 3) 0 rfl (by decide))
  ⟨hr, c2_pool_bounds_in_flight hr⟩

/-! ### Claim C4 (corrected) -/

/-- Claim C4 counterexample, pool of 3 with callers A, B, C.  A finishes a
call and sits in its cooldown; B acquires, hits a 429 and closes the gate by
seizing the single available permit (gate closed, 0 available).  A's cooldown
then expires, releasing A's permit — and C's fresh attempt acquires it and
begins network I/O while B is still sleeping with the gate closed.  The four
conjuncts exhibit: the pre-state is reachable and gate-closed, the acquire
step fires from it, and the gate is still closed afterwards with C running. -/
theorem c4_counterexample :
    Reachable 3 3 ⟨3, 1, [Phase.finished, Phase.sleeping 1, Phase.waiting]⟩ ∧
      gateClosed ⟨3, 1, [Phase.finished, Phase.sleeping 1, Phase.waiting]⟩ = true ∧
      Step ⟨3, 1, [Phase.finished, Phase.sleeping 1, Phase.waiting]⟩
        ⟨3, 0, [Phase.finished, Phase.sleeping 1, Phase.running 0]⟩ ∧
      gateClosed ⟨3, 0, [Phase.finished, Phase.sleeping 1, Phase.running 0]⟩ = true :=
  have h1 : Reachable 3 3 ⟨3, 2, [Phase.running 0, Phase.waiting, Phase.waiting]⟩ :=
    Reachable.step Reachable.init (Step.acquire (initState 3 3) 0 rfl (by decide))
  have h2 : Reachable 3 3 ⟨3, 2, [Phase.cooldown, Phase.waiting, Phase.waiting]⟩ :=
    Reachable.step h1
      (Step.finish ⟨3, 2, [Phase.running 0, Phase.waiting, Phase.waiting]⟩ 0 0 rfl)
  have h3 : Reachable 3 3 ⟨3, 1, [Phase.cooldown, Phase.running 0, Phase.waiting]⟩ :=
    Reachable.step h2
      (Step.acquire ⟨3, 2, [Phase.cooldown, Phase.waiting, Phase.waiting]⟩ 1 rfl (by decide))
  have h4 : Reachable 3 3 ⟨3, 0, [Phase.cooldown, Phase.sleeping 1, Phase.waiting]⟩ :=
    Reachable.step h3
      (Step.throttle ⟨3, 1, [Phase.cooldown, Phase.running 0, Phase.waiting]⟩ 1 1 0 rfl
        (by decide))
  have h5 : Reachable 3 3 ⟨3, 1, [Phase.finished, Phase.sleeping 1, Phase.waiting]⟩ :=
    Reachable.step h4
      (Step.release ⟨3, 0, [Phase.cooldown, Phase.sleeping 1, Phase.waiting]⟩ 0 rfl)
  ⟨h5, rfl,
    Step.acquire ⟨3, 1, [Phase.finished, Phase.sleeping 1, Phase.waiting]⟩ 2 rfl (by decide),
    rfl⟩

/-- Claim C4 as amended: closing the gate seizes only the permits available at
that moment, so an attempt suspended in `acquire_owned` stays suspended
exactly while no permit is available — a waiting caller can begin network I/O
(move to `running`) only by consuming an available permit.  Permits released
during a closure (a cooldown expiry, or an earlier seizure dropped by a later
overwrite) therefore admit new network I/O before the gate reopens. -/
theorem c4_amended_io_needs_available_permit {s t : SysState} {i : Nat}
    (hw : s.tasks[i]? = some .waiting) (hst : Step s t)
    (hr : t.tasks[i]? = some (.running 0)) :
    1 ≤ s.avail ∧ t.avail = s.avail - 1 := by
  cases hst with
  | acquire j h hp => exact ⟨hp, rfl⟩
  | throttle j k l h hk =>
    exfalso
    rcases eq_or_ne j i with hij | hij
    · subst hij
      rw [hw] at h
      simp at h
    · rw [List.getElem?_set_ne hij, hw] at hr
      simp at hr
  | wake j l h =>
    exfalso
    rcases eq_or_ne j i with hij | hij
    · subst hij
      rw [hw] at h
      simp at h
    · rw [List.getElem?_set_ne hij, hw] at hr
      simp at hr
  | finish j l h =>
    exfalso
    rcases eq_or_ne j i with hij | hij
    · subst hij
      rw [hw] at h
      simp at h
    · rw [List.getElem?_set_ne hij, hw] at hr
      simp at hr
  | release j h =>
    exfalso
    rcases eq_or_ne j i with hij | hij
    · subst hij
      rw [hw] at h
      simp at h
    · rw [List.getElem?_set_ne hij, hw] at hr
      simp at hr

/-- Witness for the amended C4: the sole caller of a pool of 1 moves from
waiting to running by consuming the one available permit. -/
theorem c4_amended_witness :
    (initState 1 1).tasks[0]? = some Phase.waiting ∧
      (1 ≤ (initState 1 1).avail ∧
        (⟨1, 0, [Phase.running 0]⟩ : SysState).avail = (initState 1 1).avail - 1) :=
  ⟨rfl,
    c4_amended_io_needs_available_permit (s := initState 1 1)
      (t := ⟨1, 0, [Phase.running 0]⟩) (i := 0) rfl
      (Step.acquire (initState 1 1) 0 rfl (by decide)) rfl⟩

/-! ### The data model (`vived_models`)

Each structure mirrors the Rust struct and its `Deserialize` derive; each
`decode…` function is the derived deserializer on the `Json` model, following
serde's rules: struct fields are required unless of `Option` type (missing or
`null` → `none`) or marked `#[serde(default)]`; unknown fields are ignored;
field names follow the struct's `rename_all` / `rename` attributes.

`chrono::DateTime<chrono::Utc>` (an external crate type) is kept as its raw
RFC3339 text: the decoder accepts any JSON string and stores it verbatim.
The claims under study never exercise chrono's rejection of malformed
timestamp strings, so its internal parse is abstracted. -/

/-- `ServerId` of `ids.rs` (`#[serde(transparent)]` over `String`). -/
structure ServerId where
  val : String
deriving DecidableEq

/-- `ChannelId` of `ids.rs`. -/
structure ChannelId where
  val : String
deriving DecidableEq

/-- `MessageId` of `ids.rs`. -/
structure MessageId where
  val : String
deriving DecidableEq

/-- `UserId` of `ids.rs`. -/
structure UserId where
  val : String
deriving DecidableEq

/-- `WebhookId` of `ids.rs`. -/
structure WebhookId where
  val : String
deriving DecidableEq

/-- `RoleId` of `ids.rs` (`#[serde(transparent)]` over `usize`). -/
structure RoleId where
  val : Nat
deriving DecidableEq

/-- A `chrono::DateTime<chrono::Utc>` kept as its raw RFC3339 text. -/
structure UtcDateTime where
  raw : String
deriving DecidableEq

/-- Decode a transparent string id. -/
def decodeServerId (j : Json) : Option ServerId := (decodeString j).map ServerId.mk

/-- Decode a transparent string id. -/
def decodeChannelId (j : Json) : Option ChannelId := (decodeString j).map ChannelId.mk

/-- Decode a transparent string id. -/
def decodeMessageId (j : Json) : Option MessageId := (decodeString j).map MessageId.mk

/-- Decode a transparent string id. -/
def decodeUserId (j : Json) : Option UserId := (decodeString j).map UserId.mk

/-- Decode a transparent string id. -/
def decodeWebhookId (j : Json) : Option WebhookId := (decodeString j).map WebhookId.mk

/-- Decode a transparent usize id. -/
def decodeRoleId (j : Json) : Option RoleId := (decodeUsize j).map RoleId.mk

/-- Decode a timestamp (see the section comment: raw text is kept). -/
def decodeUtcDateTime (j : Json) : Option UtcDateTime :=
  (decodeString j).map UtcDateTime.mk

/-- `MessageType` of `message.rs` (`rename_all = "lowercase"`). -/
inductive MessageType where
  | Default
  | System
deriving DecidableEq

/-- Decode a `MessageType` from its lowercase tag string. -/
def decodeMessageType : Json → Option MessageType
  | .str s =>
    if s = "default" then some .Default
    else if s = "system" then some .System
    else none
  | _ => none

/-- Decode a `WrappedId<T>` of `message.rs` (`{id: …}`) straight to its id,
fusing the `.id` projection applied by `From<RawMentions> for Mentions`. -/
def decodeWrappedId (d : Json → Option α) (j : Json) : Option α := do
  let fs ← asObj j
  reqField fs "id" d

/-- `Mentions` of `message.rs`.  Deserialized `#[serde(from = "RawMentions")]`
where `RawMentions` is `#[serde(default)]` on every field. -/
structure Mentions where
  users : List UserId
  channels : List ChannelId
  roles : List RoleId
  everyone : Bool
  here : Bool
deriving DecidableEq

/-- The default `Mentions` (all lists empty, both flags false). -/
def Mentions.default : Mentions := ⟨[], [], [], false, false⟩

/-- Decode `Mentions` via `RawMentions` (every field `#[serde(default)]`,
field names not renamed) and the `From<RawMentions>` conversion. -/
def decodeMentions (j : Json) : Option Mentions := do
  let fs ← asObj j
  let users ← defField fs "users" (decodeList (decodeWrappedId decodeUserId)) []
  let channels ← defField fs "channels" (decodeList (decodeWrappedId decodeChannelId)) []
  let roles ← defField fs "roles" (decodeList (decodeWrappedId decodeRoleId)) []
  let everyone ← defField fs "everyone" decodeBool false
  let here ← defField fs "here" decodeBool false
  pure ⟨users, channels, roles, everyone, here⟩

/-- `CreatedByRawFields` of `message.rs` (`rename_all = "camelCase"`),
flattened into `Message`. -/
structure CreatedByRawFields where
  created_by : UserId
  created_by_webhook_id : Option WebhookId
deriving DecidableEq

/-- Decode the flattened `CreatedByRawFields` from the surrounding object's
field list (serde `flatten` reads them from the same object). -/
def decodeCreatedByRawFields (fs : List (String × Json)) :
    Option CreatedByRawFields := do
  let cb ← reqField fs "createdBy" decodeUserId
  let wh ← optField fs "createdByWebhookId" decodeWebhookId
  pure ⟨cb, wh⟩

/-- `Color` of `color.rs`: an rgb triple, deserialized `#[serde(from = "u32")]`. -/
structure Color where
  r : Nat
  g : Nat
  b : Nat
deriving DecidableEq

/-- `From<u32> for Color`: the three bytes of the low 24 bits (`& 0xFF`
written as `% 256`). -/
def Color.ofU32 (v : Nat) : Color :=
  ⟨(v >>> 16) % 256, (v >>> 8) % 256, v % 256⟩

/-- Decode a `Color` from a JSON `u32`. -/
def decodeColor (j : Json) : Option Color := (decodeU32 j).map Color.ofU32

/-- `EmbedFooter` of `embed.rs` (field names not renamed). -/
structure EmbedFooter where
  icon_url : Option String
  text : String
deriving DecidableEq

/-- Decode an `EmbedFooter`: `icon_url` defaulted `Option`, `text` required. -/
def decodeEmbedFooter (j : Json) : Option EmbedFooter := do
  let fs ← asObj j
  let icon ← optField fs "icon_url" decodeString
  let text ← reqField fs "text" decodeString
  pure ⟨icon, text⟩

/-- `EmbedImage` of `embed.rs`. -/
structure EmbedImage where
  url : Option String
deriving DecidableEq

/-- Decode an `EmbedImage`: `url` is a defaulted `Option`. -/
def decodeEmbedImage (j : Json) : Option EmbedImage := do
  let fs ← asObj j
  let url ← optField fs "url" decodeString
  pure ⟨url⟩

/-- `EmbedAuthor` of `embed.rs`. -/
structure EmbedAuthor where
  name : String
  url : Option String
  icon_url : Option String
deriving DecidableEq

/-- Decode an `EmbedAuthor`: `name` required, the urls defaulted `Option`s. -/
def decodeEmbedAuthor (j : Json) : Option EmbedAuthor := do
  let fs ← asObj j
  let name ← reqField fs "name" decodeString
  let url ← optField fs "url" decodeString
  let icon ← optField fs "icon_url" decodeString
  pure ⟨name, url, icon⟩

/-- `EmbedField` of `embed.rs`. -/
structure EmbedField where
  name : String
  value : String
  inline : Bool
deriving DecidableEq

/-- Decode an `EmbedField`: `name` and `value` required, `inline` defaults to
`false`. -/
def decodeEmbedField (j : Json) : Option EmbedField := do
  let fs ← asObj j
  let name ← reqField fs "name" decodeString
  let value ← reqField fs "value" decodeString
  let inl ← defField fs "inline" decodeBool false
  pure ⟨name, value, inl⟩

/-- `Embed` of `embed.rs` (`rename_all = "camelCase"`, struct-level
`#[serde(default)]`: every field is optional with its default). -/
structure Embed where
  title : Option String
  description : Option String
  url : Option String
  color : Option Color
  footer : Option EmbedFooter
  timestamp : Option UtcDateTime
  thumbnail : EmbedImage
  image : EmbedImage
  author : Option EmbedAuthor
  fields : List EmbedField
deriving DecidableEq

/-- Decode an `Embed` (struct-level `default`). -/
def decodeEmbed (j : Json) : Option Embed := do
  let fs ← asObj j
  let title ← optField fs "title" decodeString
  let description ← optField fs "description" decodeString
  let url ← optField fs "url" decodeString
  let color ← optField fs "color" decodeColor
  let footer ← optField fs "footer" decodeEmbedFooter
  let timestamp ← optField fs "timestamp" decodeUtcDateTime
  let thumbnail ← defField fs "thumbnail" decodeEmbedImage ⟨none⟩
  let image ← defField fs "image" decodeEmbedImage ⟨none⟩
  let author ← optField fs "author" decodeEmbedAuthor
  let fields ← defField fs "fields" (decodeList decodeEmbedField) []
  pure ⟨title, description, url, color, footer, timestamp, thumbnail, image,
    author, fields⟩

/-- `Message` of `message.rs` (`rename_all = "camelCase"`). -/
structure Message where
  id : MessageId
  message_type : MessageType
  server_id : Option ServerId
  channel_id : ChannelId
  content : Option String
  embeds : List Embed
  reply_message_ids : Option (List MessageId)
  is_private : Bool
  is_silent : Bool
  mentions : Mentions
  created_at : UtcDateTime
  created_by : CreatedByRawFields
  updated_at : Option UtcDateTime
deriving DecidableEq

/-- Decode a `Message`: `id`, `type`, `channelId`, `createdAt` required;
`serverId`, `content`, `replyMessageIds`, `updatedAt` are `Option`s;
`embeds`, `isPrivate`, `isSilent`, `mentions` are `#[serde(default)]`;
`created_by` is the flattened `CreatedByRawFields`. -/
def decodeMessage (j : Json) : Option Message := do
  let fs ← asObj j
  let id ← reqField fs "id" decodeMessageId
  let mtype ← reqField fs "type" decodeMessageType
  let sid ← optField fs "serverId" decodeServerId
  let cid ← reqField fs "channelId" decodeChannelId
  let content ← optField fs "content" decodeString
  let embeds ← defField fs "embeds" (decodeList decodeEmbed) []
  let rmi ← optField fs "replyMessageIds" (decodeList decodeMessageId)
  let ispriv ← defField fs "isPrivate" decodeBool false
  let issil ← defField fs "isSilent" decodeBool false
  let mentions ← defField fs "mentions" decodeMentions Mentions.default
  let cat ← reqField fs "createdAt" decodeUtcDateTime
  let cby ← decodeCreatedByRawFields fs
  let uat ← optField fs "updatedAt" decodeUtcDateTime
  pure ⟨id, mtype, sid, cid, content, embeds, rmi, ispriv, issil, mentions,
    cat, cby, uat⟩

/-! ### The websocket events (`vived_websocket/src/events.rs`) -/

/-- `MessageDeleteData` of `events.rs` (`rename_all = "camelCase"`, every
field required). -/
structure MessageDeleteData where
  id : MessageId
  server_id : ServerId
  channel_id : ChannelId
  deleted_at : UtcDateTime
  is_private : Bool
deriving DecidableEq

/-- Decode a `MessageDeleteData`. -/
def decodeMessageDeleteData (j : Json) : Option MessageDeleteData := do
  let fs ← asObj j
  let id ← reqField fs "id" decodeMessageId
  let sid ← reqField fs "serverId" decodeServerId
  let cid ← reqField fs "channelId" decodeChannelId
  let dat ← reqField fs "deletedAt" decodeUtcDateTime
  let ispriv ← reqField fs "isPrivate" decodeBool
  pure ⟨id, sid, cid, dat, ispriv⟩

/-- `GuildedEvent` of `events.rs`: adjacently tagged
(`#[serde(tag = "t", content = "d")]`), `server_id` renamed `serverId`. -/
inductive GuildedEvent where
  | ChatMessageCreated (server_id : ServerId) (message : Message)
  | ChatMessageUpdated (server_id : ServerId) (message : Message)
  | ChatMessageDeleted (server_id : ServerId) (message : MessageDeleteData)
deriving DecidableEq

/-- Decode a `GuildedEvent` frame: read the tag at key `t`, the content at
key `d`, and decode the variant's fields from the content object. -/
def decodeGuildedEvent (j : Json) : Option GuildedEvent := do
  let fs ← asObj j
  let tag ← reqField fs "t" decodeString
  let d ← lookupField fs "d"
  let dfs ← asObj d
  if tag = "ChatMessageCreated" then do
    let sid ← reqField dfs "serverId" decodeServerId
    let msg ← reqField dfs "message" decodeMessage
    pure (.ChatMessageCreated sid msg)
  else if tag = "ChatMessageUpdated" then do
    let sid ← reqField dfs "serverId" decodeServerId
    let msg ← reqField dfs "message" decodeMessage
    pure (.ChatMessageUpdated sid msg)
  else if tag = "ChatMessageDeleted" then do
    let sid ← reqField dfs "serverId" decodeServerId
    let msg ← reqField dfs "message" decodeMessageDeleteData
    pure (.ChatMessageDeleted sid msg)
  else none

/-! ### The relay's event loop (`vived_websocket/src/client.rs`)

`event_loop` reads frames from the stream, answers `Ping` frames with a
`Pong` carrying the same payload, converts `Binary` frames to text when they
are valid UTF-8, deserializes text as a `GuildedEvent`, and broadcasts
decoded events on the `tokio::sync::broadcast` channel.  Every failure
(read error, non-UTF-8 binary, undecodable text, other frame kinds) is
logged and the loop continues.

A text body is a `String` in the source, fed to `serde_json::from_str`; the
model carries the body's JSON parse directly (`doc : Option Json`, `none` for
a body that is not syntactically valid JSON), so `doc.bind decodeGuildedEvent`
is exactly `serde_json::from_str::<GuildedEvent>`. -/

/-- One item delivered by `read.next()`: a frame, or a read error. -/
inductive Frame where
  /-- `Message::Text`, carrying the JSON parse of its body. -/
  | text (doc : Option Json)
  /-- `Message::Binary`: `none` when the bytes are not valid UTF-8, otherwise
  the JSON parse of the converted text. -/
  | binary (utf8 : Option (Option Json))
  /-- `Message::Ping` with its payload bytes. -/
  | ping (payload : List Nat)
  /-- Any other frame kind (`Pong`, `Close`, `Frame`): the `_` arm. -/
  | control
  /-- `read.next()` returned `Err(e)`. -/
  | readError

/-- What the loop has written back and published so far. -/
structure RelayOutput where
  pongs : List (List Nat)
  published : List GuildedEvent
deriving DecidableEq

/-- One iteration of the `while let` loop body on the next frame. -/
def relayStep (out : RelayOutput) : Frame → RelayOutput
  | .text doc =>
    match doc.bind decodeGuildedEvent with
    | some e => ⟨out.pongs, out.published ++ [e]⟩
    | none => out
  | .binary none => out
  | .binary (some doc) =>
    match doc.bind decodeGuildedEvent with
    | some e => ⟨out.pongs, out.published ++ [e]⟩
    | none => out
  | .ping p => ⟨out.pongs ++ [p], out.published⟩
  | .control => out
  | .readError => out

/-- `event_loop` over a finite prefix of the stream: fold the loop body over
the frames read. -/
def event_loop (frames : List Frame) : RelayOutput :=
  frames.foldl relayStep ⟨[], []⟩

/-- What a subscriber whose `broadcast::Receiver` was created after
`subscribedAt` events had been published can receive, for channel capacity
`capacity`: everything published since it subscribed, minus the oldest
entries dropped if it lags more than `capacity` behind. -/
def subscriberView (capacity : Nat) (published : List GuildedEvent)
    (subscribedAt : Nat) : List GuildedEvent :=
  let msgs := published.drop subscribedAt
  msgs.drop (msgs.length - capacity)

/-! ### Claim C8 -/

/-- The event frame of claim C8: a `ChatMessageCreated` envelope with
`serverId` `S1` and a well-formed message payload. -/
def c8_frame : Json :=
  .obj
    [( "t", .str "ChatMessageCreated"),
     ( "d", .obj
        [( "serverId", .str "S1"),
         ( "message", .obj
            [( "id", .str "11111111-2222-3333-4444-555555555555"),
             ( "type", .str "default"),
             ( "serverId", .str "S1"),
             ( "channelId", .str "C1"),
             ( "content", .str "hello world"),
             ( "createdAt", .str "2023-01-01T00:00:00Z"),
             ( "createdBy", .str "U1")])])]

/-- The decoded message payload of `c8_frame`. -/
def c8_message : Message :=
  ⟨⟨ "11111111-2222-3333-4444-555555555555"⟩, .Default, some ⟨ "S1"⟩, ⟨ "C1"⟩,
    some "hello world", [], none, false, false, Mentions.default,
    ⟨ "2023-01-01T00:00:00Z"⟩, ⟨⟨ "U1"⟩, none⟩, none⟩

/-- The decoded event of `c8_frame`. -/
def c8_event : GuildedEvent := .ChatMessageCreated ⟨ "S1"⟩ c8_message

/-- Claim C8: the `ChatMessageCreated` frame decodes to a
`ChatMessageCreated` event carrying `server_id` `S1` and the message payload;
the event loop publishes exactly that event for the frame; and a subscriber
created before publication (`subscribedAt = 0`, any positive channel
capacity) receives it. -/
theorem c8_chat_message_created_delivered (capacity : Nat) (hc : 1 ≤ capacity) :
    decodeGuildedEvent c8_frame = some c8_event ∧
      (event_loop [Frame.text (some c8_frame)]).published = [c8_event] ∧
      subscriberView capacity (event_loop [Frame.text (some c8_frame)]).published 0
        = [c8_event] := by
  refine ⟨rfl, rfl, ?_⟩
  show subscriberView capacity [c8_event] 0 = [c8_event]
  simp [subscriberView, Nat.sub_eq_zero_of_le hc]

/-- Witness for C8 at channel capacity 16. -/
theorem c8_witness :
    1 ≤ 16 ∧
      (decodeGuildedEvent c8_frame = some c8_event ∧
        (event_loop [Frame.text (some c8_frame)]).published = [c8_event] ∧
        subscriberView 16 (event_loop [Frame.text (some c8_frame)]).published 0
          = [c8_event]) :=
  ⟨by decide, c8_chat_message_created_delivered 16 (by decide)⟩

/-! ### Claim C9 -/

/-- Claim C9: for every ping frame the loop body appends exactly one pong
(carrying the ping's payload) to the frames written back, and publishes no
event for that frame.  `event_loop` is the fold of `relayStep`, so each ping
read contributes exactly this. -/
theorem c9_ping_one_pong_no_event (out : RelayOutput) (p : List Nat) :
    relayStep out (Frame.ping p) = ⟨out.pongs ++ [p], out.published⟩ :=
  rfl

/-! ### Claim C10 -/

/-- Claim C10: a text frame whose body fails to decode as a `GuildedEvent` —
whether it is valid JSON of the wrong shape, arrives as UTF-8-convertible
binary, or is not valid JSON at all — is swallowed: the loop's entire output
(pongs and published events) is as if the frame had not been read, so no
event is delivered for it and all surrounding frames are still processed;
`event_loop` being a total function, the loop neither panics nor stops. -/
theorem c10_malformed_frame_swallowed (fs1 fs2 : List Frame) (j : Json)
    (h : decodeGuildedEvent j = none) :
    event_loop (fs1 ++ Frame.text (some j) :: fs2) = event_loop (fs1 ++ fs2) ∧
      event_loop (fs1 ++ Frame.binary (some (some j)) :: fs2)
        = event_loop (fs1 ++ fs2) ∧
      event_loop (fs1 ++ Frame.text none :: fs2) = event_loop (fs1 ++ fs2) := by
  unfold event_loop
  refine ⟨?_, ?_, ?_⟩
  · rw [List.foldl_append, List.foldl_append, List.foldl_cons]
    congr 1
    simp [relayStep, h]
  · rw [List.foldl_append, List.foldl_append, List.foldl_cons]
    congr 1
    simp [relayStep, h]
  · rw [List.foldl_append, List.foldl_append, List.foldl_cons]
    rfl

/-- Witness for C10: a frame tagged with an unknown event name, followed by a
ping, leaves the loop output identical to the stream without it. -/
theorem c10_witness :
    decodeGuildedEvent (Json.obj [( "t", Json.str "Bogus")]) = none ∧
      event_loop ([] ++ Frame.text (some (Json.obj [( "t", Json.str "Bogus")])) ::
          [Frame.ping []])
        = event_loop ([] ++ [Frame.ping []]) :=
  ⟨rfl,
    (c10_malformed_frame_swallowed [] [Frame.ping []]
      (Json.obj [( "t", Json.str "Bogus")]) rfl).1⟩

end Vived
